import Mathlib

/-!
Verification of the VoiceEquation desktop utility (`src/app.py`).

The development shallowly embeds the two stateful components of the program:

* `AudioRecorder` (spec name: AudioCapture) — the microphone buffering
  wrapper (`src/app.py` lines 43-68);
* `MainApplication` (spec name: ApplicationController) — the UI controller
  (`src/app.py` lines 86-251).

Python strings are modelled as `List Char`; int16 audio samples as `Int`.
The external collaborators (the Whisper transcription model and the remote
chat-completion client) are passed to the handlers as function parameters
returning `Except Unit (List Char)`: `.error ()` models the collaborator
raising (TranscriptionError / ServiceError).  Python's attribute mutation
survives a raised exception, so recorder operations that can raise return
`Except AudioRecorder ...` whose `.error` payload is the recorder state as
mutated up to the point of the raise.  Observable side effects of a handler
(message boxes, clipboard writes, temp-file creation and deletion) are
returned as a list of `AppEvent`s.
-/

/-- An int16 audio sample (`dtype='int16'` in `sd.InputStream`). -/
abbrev Sample := Int

/-- Lifecycle of the `sounddevice` input stream as far as the recorder
observes it: `started` after `stream.start()`, `closed` after
`stream.close()`. -/
inductive StreamState where
  | started
  | closed
  deriving DecidableEq

/-- State of `AudioRecorder` (`src/app.py` lines 43-47): the `recording`
flag, the `audio_data` buffer, and the `stream` attribute (`none` models
the attribute not having been assigned yet). The `audio_queue` field of
the source is never read and is omitted. -/
structure AudioRecorder where
  recording : Bool
  audio_data : List Sample
  stream : Option StreamState
  deriving DecidableEq

/-- A fresh `AudioRecorder()` (`__init__`, lines 44-47): not recording,
empty buffer, no `stream` attribute. -/
def AudioRecorder.init : AudioRecorder :=
  { recording := false, audio_data := [], stream := none }

/-- `callback` (lines 49-51): if `self.recording`, extend `audio_data`
with the delivered frame's samples (mono, one sample per row of
`indata`). -/
def AudioRecorder.callback (r : AudioRecorder) (indata : List Sample) : AudioRecorder :=
  if r.recording then { r with audio_data := r.audio_data ++ indata } else r

/-- A sequence of audio-subsystem callback invocations. -/
def deliverFrames (r : AudioRecorder) (frames : List (List Sample)) : AudioRecorder :=
  frames.foldl AudioRecorder.callback r

/-- `start_recording` (lines 53-62): sets `self.recording = True` and
`self.audio_data = []`, then opens and starts the input stream.
`deviceOk = false` models `sd.InputStream(...)` raising (no input device /
device busy); the exception propagates to the caller, but the flag and
buffer assignments have already happened, so the `.error` payload carries
that mutated state (and the `stream` attribute keeps its previous value). -/
def AudioRecorder.start_recording (r : AudioRecorder) (deviceOk : Bool) :
    Except AudioRecorder AudioRecorder :=
  let r1 : AudioRecorder := { r with recording := true, audio_data := [] }
  if deviceOk then .ok { r1 with stream := some .started } else .error r1

/-- `stop_recording` (lines 64-68): sets `self.recording = False`, then
`self.stream.stop(); self.stream.close()` and returns a fresh array copy
of `audio_data`.  If no started stream exists (`stream` attribute missing,
or stream already closed) the stream calls raise; `recording` has already
been set to `False` when that happens. -/
def AudioRecorder.stop_recording (r : AudioRecorder) :
    Except AudioRecorder (List Sample × AudioRecorder) :=
  let r1 : AudioRecorder := { r with recording := false }
  match r.stream with
  | some .started => .ok (r1.audio_data, { r1 with stream := some .closed })
  | _ => .error r1

/-- The literal marker `"LaTeX code: "` stripped by `text_to_latex`
(lines 82-83). -/
def latexMarker : List Char := "LaTeX code: ".toList

/-- `text_to_latex` (lines 70-84).  The remote chat-completion call is the
parameter `create` (it returns `.error ()` when the remote call raises);
on success the function strips one leading occurrence of the
`"LaTeX code: "` marker if present and returns the remainder verbatim. -/
def text_to_latex (create : List Char → Except Unit (List Char))
    (text : List Char) : Except Unit (List Char) :=
  match create text with
  | .error e => .error e
  | .ok latex_code =>
      .ok (if latexMarker.isPrefixOf latex_code then
             latex_code.drop latexMarker.length
           else latex_code)

-- Decidable equality of results, used to evaluate concrete runs.

deriving instance DecidableEq for Except

-- Helper lemmas about list prefixes and folds.

theorem isPrefixOf_append_self (a b : List Char) : a.isPrefixOf (a ++ b) = true := by
  induction a with
  | nil => simp [List.isPrefixOf]
  | cons x xs ih => simp [List.isPrefixOf, ih]

theorem drop_length_append (a b : List Char) : (a ++ b).drop a.length = b := by
  induction a with
  | nil => rfl
  | cons x xs ih => simp [ih]

/-- While the recording flag is set, a burst of delivered frames appends
exactly their concatenation to the buffer and changes nothing else. -/
theorem deliverFrames_armed (fs : List (List Sample)) (r : AudioRecorder)
    (h : r.recording = true) :
    deliverFrames r fs = { r with audio_data := r.audio_data ++ fs.flatten } := by
  induction fs generalizing r with
  | nil => simp [deliverFrames]
  | cons f fs ih =>
      simp only [deliverFrames, List.foldl_cons] at *
      rw [show AudioRecorder.callback r f = { r with audio_data := r.audio_data ++ f } from by
            simp [AudioRecorder.callback, h]]
      rw [ih { r with audio_data := r.audio_data ++ f } h]
      simp

/-- Once the recording flag is cleared, delivered frames leave the
recorder unchanged. -/
theorem deliverFrames_stopped (fs : List (List Sample)) (r : AudioRecorder)
    (h : r.recording = false) :
    deliverFrames r fs = r := by
  induction fs with
  | nil => rfl
  | cons f fs ih =>
      simp only [deliverFrames, List.foldl_cons] at *
      rw [show AudioRecorder.callback r f = r from by simp [AudioRecorder.callback, h]]
      exact ih

/-- Parameters of the temporary waveform file written by
`MainApplication.stop_recording` (`src/app.py` lines 215-220):
`wf.setnchannels(1); wf.setsampwidth(2); wf.setframerate(16000);
wf.writeframes(audio_data.tobytes())`. -/
structure WavFile where
  nchannels : Nat
  sampwidth : Nat
  framerate : Nat
  frames : List Sample
  deriving DecidableEq

/-- Observable side effects of a UI handler invocation: a blocking
`messagebox.showerror` call, a `pyperclip.copy` call, creation of the
temporary waveform file, and its deletion by `os.unlink`. -/
inductive AppEvent where
  | errorShown
  | clipboard (text : List Char)
  | wavWritten (w : WavFile)
  | wavDeleted
  deriving DecidableEq

/-- `true` exactly on `errorShown`. -/
def AppEvent.isError : AppEvent → Bool
  | .errorShown => true
  | _ => false

/-- `true` exactly on `wavWritten` events. -/
def AppEvent.isWavWritten : AppEvent → Bool
  | .wavWritten _ => true
  | _ => false

/-- State of `MainApplication` (`src/app.py` lines 86-105): the recorder,
the controller's own `recording` flag, the stored `transcribed_text` and
`latex_code` strings, the two display widgets' contents (`trans_text`,
`latex_text`), the status bar (`status_var`) and the record button label.
`start_time` (wall-clock) and widget geometry are not modelled. -/
structure MainApplication where
  recorder : AudioRecorder
  recording : Bool
  transcribed_text : List Char
  latex_code : List Char
  trans_text : List Char
  latex_text : List Char
  status_var : String
  record_btn : String
  deriving DecidableEq

/-- `MainApplication.__init__` (lines 87-105): fresh recorder, not
recording, both stored strings empty, both text widgets empty, empty
status bar, button labelled "Start Recording". -/
def MainApplication.init : MainApplication :=
  { recorder := AudioRecorder.init
    recording := false
    transcribed_text := []
    latex_code := []
    trans_text := []
    latex_text := []
    status_var := ""
    record_btn := "Start Recording" }

/-- `MainApplication.start_recording` (lines 197-205): try to arm the
recorder; on success set `self.recording = True`, relabel the button and
set the status text; on exception show one error box (state otherwise as
mutated so far: only the recorder's own assignments happened). -/
def MainApplication.start_recording (deviceOk : Bool) (s : MainApplication) :
    MainApplication × List AppEvent :=
  match s.recorder.start_recording deviceOk with
  | .ok r1 =>
      ({ s with recorder := r1, recording := true,
                record_btn := "Stop Recording", status_var := "Recording..." }, [])
  | .error r1 => ({ s with recorder := r1 }, [.errorShown])

/-- First half of `MainApplication.stop_recording` (lines 209-220), up to
the point where the blocking transcription call begins: disarm the
recorder, clear the controller flag, relabel the button, set the status to
"Processing audio..." and write the temporary waveform file (1 channel,
2-byte samples, 16 kHz).  If disarming raises, the single `except` handler
(lines 235-237) shows one error box and sets the status. The third
component is the buffer handed to transcription (`none` when disarming
raised). -/
def MainApplication.stopPhase1 (s : MainApplication) :
    MainApplication × List AppEvent × Option (List Sample) :=
  match s.recorder.stop_recording with
  | .error r1 =>
      ({ s with recorder := r1, status_var := "Error occurred" },
       [AppEvent.errorShown], none)
  | .ok (buf, r1) =>
      ({ s with recorder := r1, recording := false,
                record_btn := "Start Recording", status_var := "Processing audio..." },
       [AppEvent.wavWritten ⟨1, 2, 16000, buf⟩], some buf)

/-- Second half of `MainApplication.stop_recording` (lines 223-234):
transcribe the file (`tr`), store the transcript, call `text_to_latex`
(with remote call `co`), store the LaTeX, update both text widgets, set
the status to "Ready" and delete the temporary file. A raise from either
collaborator lands in the `except` handler (lines 235-237): one error box,
status "Error occurred", and — since `os.unlink` is skipped — no
`wavDeleted` event.  Note the transcript is stored (line 224) before
`text_to_latex` is called (line 225). -/
def MainApplication.stopPhase2 (tr : List Sample → Except Unit (List Char))
    (co : List Char → Except Unit (List Char)) (buf : List Sample)
    (s : MainApplication) (evs : List AppEvent) : MainApplication × List AppEvent :=
  match tr buf with
  | .error _ => ({ s with status_var := "Error occurred" }, evs ++ [AppEvent.errorShown])
  | .ok transcript =>
      let s2 : MainApplication := { s with transcribed_text := transcript }
      match text_to_latex co s2.transcribed_text with
      | .error _ =>
          ({ s2 with status_var := "Error occurred" }, evs ++ [AppEvent.errorShown])
      | .ok latex =>
          ({ s2 with latex_code := latex, trans_text := s2.transcribed_text,
                     latex_text := latex, status_var := "Ready" },
           evs ++ [AppEvent.wavDeleted])

/-- `MainApplication.stop_recording` (lines 207-237), the composition of
the two phases. `tr` models `whisper_model.transcribe` (returning the
`result['text']` string), `co` the remote chat-completion call. -/
def MainApplication.stop_recording (tr : List Sample → Except Unit (List Char))
    (co : List Char → Except Unit (List Char)) (s : MainApplication) :
    MainApplication × List AppEvent :=
  match s.stopPhase1 with
  | (s1, evs, none) => (s1, evs)
  | (s1, evs, some buf) => MainApplication.stopPhase2 tr co buf s1 evs

/-- `toggle_recording` (lines 191-195): dispatch on the controller's
`recording` flag — start when it is clear, stop when it is set. -/
def MainApplication.toggle_recording (deviceOk : Bool)
    (tr : List Sample → Except Unit (List Char))
    (co : List Char → Except Unit (List Char)) (s : MainApplication) :
    MainApplication × List AppEvent :=
  if s.recording = false then MainApplication.start_recording deviceOk s
  else MainApplication.stop_recording tr co s

/-- `copy_text` (lines 239-241): copy the stored transcript to the
clipboard and set the status text. -/
def MainApplication.copy_text (s : MainApplication) : MainApplication × List AppEvent :=
  ({ s with status_var := "Text copied to clipboard!" },
   [AppEvent.clipboard s.transcribed_text])

/-- `copy_latex` (lines 243-245): copy the stored LaTeX to the clipboard
and set the status text. -/
def MainApplication.copy_latex (s : MainApplication) : MainApplication × List AppEvent :=
  ({ s with status_var := "LaTeX copied to clipboard!" },
   [AppEvent.clipboard s.latex_code])

/-- A controller state in the middle of a recording session: recorder
armed with samples `[7]` already buffered, everything else as after
toggling from the initial state. -/
def recState : MainApplication :=
  { recorder := ⟨true, [7], some .started⟩
    recording := true
    transcribed_text := []
    latex_code := []
    trans_text := []
    latex_text := []
    status_var := "Recording..."
    record_btn := "Stop Recording" }

/-- The controller state observed while `Processing`: the state reached
by `stop_recording` from `recState` once the status bar shows
"Processing audio...", while the blocking transcription call is in
flight. -/
def procState : MainApplication := (MainApplication.stopPhase1 recState).1

/-- C1: for any session that arms the recorder, delivers any sequence of
frames while armed, and disarms, the returned buffer is exactly the
concatenation of the delivered frames (no sample lost or duplicated), so
its length is the total number of delivered samples; in particular a
session delivering 16000 samples returns a buffer of length 16000. -/
theorem C1_arm_deliver_disarm_length :
    (∀ (r r0 : AudioRecorder) (fs : List (List Sample)),
        r.start_recording true = .ok r0 →
        (deliverFrames r0 fs).stop_recording =
            .ok (fs.flatten, ⟨false, fs.flatten, some .closed⟩) ∧
          fs.flatten.length = (fs.map List.length).sum) ∧
      Except.map (fun p => p.1.length)
          ((deliverFrames ⟨true, [], some .started⟩
              [List.replicate 16000 (0 : Sample)]).stop_recording) = .ok 16000 := by
  constructor
  · intro r r0 fs h
    have hr0 : r0 = ⟨true, [], some .started⟩ := by
      simp [AudioRecorder.start_recording] at h
      simp [← h]
    subst hr0
    rw [deliverFrames_armed fs ⟨true, [], some .started⟩ rfl]
    constructor
    · simp [AudioRecorder.stop_recording]
    · simp
  · rw [deliverFrames_armed [List.replicate 16000 (0 : Sample)] ⟨true, [], some .started⟩ rfl]
    simp only [List.flatten_cons, List.flatten_nil, List.append_nil, List.nil_append,
      AudioRecorder.stop_recording, Except.map, List.length_replicate]

/-- Witness for C1 at a concrete session: arm a fresh recorder, deliver
the frames [3, 4] and [5], disarm, and get back exactly [3, 4, 5]. -/
theorem C1_witness :
    (deliverFrames ⟨true, [], some .started⟩ [[3, 4], [5]]).stop_recording =
      .ok ([3, 4, 5], ⟨false, [3, 4, 5], some .closed⟩) := by
  have h :=
    (C1_arm_deliver_disarm_length.1 AudioRecorder.init ⟨true, [], some .started⟩
      [[3, 4], [5]] rfl).1
  simpa using h

/-- C2: `text_to_latex` strips exactly one leading occurrence of the
literal `"LaTeX code: "` from the remote response and nothing else,
returning the remainder verbatim; a response without the marker is
returned unchanged; the quoted examples hold, and the full happy path
with transcript "A equals tan inverse x" displays the stripped LaTeX. -/
theorem C2_text_to_latex_marker :
    (∀ (create : List Char → Except Unit (List Char)) (text rest : List Char),
        create text = .ok (latexMarker ++ rest) →
        text_to_latex create text = .ok rest) ∧
      (∀ (create : List Char → Except Unit (List Char)) (text resp : List Char),
        create text = .ok resp → latexMarker.isPrefixOf resp = false →
        text_to_latex create text = .ok resp) ∧
      text_to_latex (fun _ => .ok "LaTeX code: x^2".toList) "x squared".toList =
        .ok "x^2".toList ∧
      text_to_latex (fun _ => .ok "x^2".toList) "x squared".toList = .ok "x^2".toList ∧
      (MainApplication.stop_recording
          (fun _ => .ok "A equals tan inverse x".toList)
          (fun _ => .ok "LaTeX code: A = \\tan^{-1}(x)".toList) recState).1.latex_text =
        "A = \\tan^{-1}(x)".toList := by
  refine ⟨?_, ?_, by decide, by decide, by decide⟩
  · intro create text rest h
    simp [text_to_latex, h, isPrefixOf_append_self, drop_length_append]
  · intro create text resp h h2
    simp [text_to_latex, h, h2]

/-- Witness for C2 at a concrete response carrying the marker. -/
theorem C2_witness :
    text_to_latex (fun _ => .ok (latexMarker ++ "E = mc^2".toList))
        "E equals m c squared".toList = .ok "E = mc^2".toList :=
  C2_text_to_latex_marker.1 _ _ _ rfl

/-- C3 counterexample: the claim says arming while already armed is
rejected, but `AudioRecorder.start_recording` has no armed-state guard:
called on an armed recorder holding the sample [5], it succeeds (returns
normally), silently discarding the buffered samples and opening a fresh
stream. -/
theorem C3_cex_rearm_accepted :
    AudioRecorder.start_recording ⟨true, [5], some .started⟩ true =
      .ok ⟨true, [], some .started⟩ := rfl

/-- C3 amended: disarming without an open started stream (in particular
without any prior arm) raises and is thereby rejected; arming while
already armed is NOT rejected — `start_recording` unconditionally resets
the buffer and opens a new stream, and double-arm is prevented only by the
controller's toggle dispatch. -/
theorem C3_amended_arm_disarm :
    (∀ r : AudioRecorder, r.stream = none →
        r.stop_recording = .error { r with recording := false }) ∧
      ∀ r : AudioRecorder, r.recording = true →
        r.start_recording true = .ok ⟨true, [], some .started⟩ := by
  constructor
  · intro r h
    simp [AudioRecorder.stop_recording, h]
  · intro r _
    rfl

/-- Witness for C3 amended: a fresh recorder rejects disarm; an armed
recorder holding the sample [9] accepts a second arm. -/
theorem C3_witness :
    AudioRecorder.init.stop_recording = .error ⟨false, [], none⟩ ∧
      AudioRecorder.start_recording ⟨true, [9], some .started⟩ true =
        .ok ⟨true, [], some .started⟩ :=
  ⟨C3_amended_arm_disarm.1 AudioRecorder.init rfl,
   C3_amended_arm_disarm.2 ⟨true, [9], some .started⟩ rfl⟩

/-- C4 counterexample: the claim says a toggle issued in the Processing
state is a no-op; but from the Processing state (`procState`, reached by
`stop_recording` while the transcription call is in flight) the
controller's `recording` flag is already `False`, so the toggle handler
dispatches to `start_recording` and the state changes — it is not a
no-op. -/
theorem C4_cex_toggle_processing :
    (MainApplication.toggle_recording true (fun _ => .ok []) (fun _ => .ok [])
        procState).1 ≠ procState := by decide

/-- C4 amended: toggle dispatches solely on the controller's `recording`
flag — it maps to start-recording exactly when the flag is clear (Idle)
and to stop-recording exactly when it is set (Recording). The code has no
Processing guard: in the Processing state the flag is already clear, so a
toggle dispatched there arms a new recording instead of being ignored
(such toggles are kept out only by the blocking event loop). -/
theorem C4_amended_toggle_dispatch :
    (∀ (deviceOk : Bool) (tr : List Sample → Except Unit (List Char))
        (co : List Char → Except Unit (List Char)) (s : MainApplication),
        s.recording = false →
        MainApplication.toggle_recording deviceOk tr co s =
          MainApplication.start_recording deviceOk s) ∧
      (∀ (deviceOk : Bool) (tr : List Sample → Except Unit (List Char))
        (co : List Char → Except Unit (List Char)) (s : MainApplication),
        s.recording = true →
        MainApplication.toggle_recording deviceOk tr co s =
          MainApplication.stop_recording tr co s) ∧
      procState.recording = false ∧
      (MainApplication.toggle_recording true (fun _ => .ok []) (fun _ => .ok [])
          procState).1.recording = true := by
  refine ⟨?_, ?_, by decide, by decide⟩
  · intro deviceOk tr co s h
    simp [MainApplication.toggle_recording, h]
  · intro deviceOk tr co s h
    simp [MainApplication.toggle_recording, h]

/-- Witness for C4 amended: toggling the initial state starts recording;
toggling a recording state stops it. -/
theorem C4_witness :
    MainApplication.toggle_recording true (fun _ => .error ()) (fun _ => .error ())
        MainApplication.init =
      MainApplication.start_recording true MainApplication.init ∧
      MainApplication.toggle_recording true (fun _ => .ok []) (fun _ => .ok []) recState =
        MainApplication.stop_recording (fun _ => .ok []) (fun _ => .ok []) recState :=
  ⟨C4_amended_toggle_dispatch.1 true _ _ MainApplication.init rfl,
   C4_amended_toggle_dispatch.2.1 true _ _ recState rfl⟩

/-- C5 counterexample: the claim says a failing formatting step leaves the
stored results unchanged; but when transcription returns "hi" and the
formatting call fails, the stored transcript has already been overwritten
(line 224 runs before line 225). -/
theorem C5_cex_transcript_overwritten :
    (MainApplication.stop_recording (fun _ => .ok "hi".toList) (fun _ => .error ())
        recState).1.transcribed_text ≠ recState.transcribed_text := by decide

/-- C5 amended: when transcription fails, the controller returns to Idle
with all stored and displayed values unchanged and the error surfaced
exactly once; when transcription succeeds and formatting fails, the same
holds except that the stored (not displayed) transcript has been updated
to the new transcript. -/
theorem C5_amended_failure_handling :
    ∀ (s : MainApplication) (tr : List Sample → Except Unit (List Char))
      (co : List Char → Except Unit (List Char)) (buf : List Sample) (r1 : AudioRecorder),
      s.recorder.stop_recording = .ok (buf, r1) →
      (tr buf = .error () →
          (MainApplication.stop_recording tr co s).1.recording = false ∧
          (MainApplication.stop_recording tr co s).1.transcribed_text = s.transcribed_text ∧
          (MainApplication.stop_recording tr co s).1.latex_code = s.latex_code ∧
          (MainApplication.stop_recording tr co s).1.trans_text = s.trans_text ∧
          (MainApplication.stop_recording tr co s).1.latex_text = s.latex_text ∧
          (MainApplication.stop_recording tr co s).1.status_var = "Error occurred" ∧
          ((MainApplication.stop_recording tr co s).2.filter AppEvent.isError).length = 1) ∧
        ∀ t : List Char, tr buf = .ok t → co t = .error () →
          (MainApplication.stop_recording tr co s).1.recording = false ∧
          (MainApplication.stop_recording tr co s).1.transcribed_text = t ∧
          (MainApplication.stop_recording tr co s).1.latex_code = s.latex_code ∧
          (MainApplication.stop_recording tr co s).1.trans_text = s.trans_text ∧
          (MainApplication.stop_recording tr co s).1.latex_text = s.latex_text ∧
          (MainApplication.stop_recording tr co s).1.status_var = "Error occurred" ∧
          ((MainApplication.stop_recording tr co s).2.filter AppEvent.isError).length = 1 := by
  intro s tr co buf r1 h
  constructor
  · intro htr
    simp [MainApplication.stop_recording, MainApplication.stopPhase1, h,
      MainApplication.stopPhase2, htr, AppEvent.isError]
  · intro t htr hco
    simp [MainApplication.stop_recording, MainApplication.stopPhase1, h,
      MainApplication.stopPhase2, htr, text_to_latex, hco, AppEvent.isError]

/-- Witness for C5 amended at a concrete session: a transcription failure
ends with status "Error occurred"; a formatting failure stores the new
transcript "hi". -/
theorem C5_witness :
    (MainApplication.stop_recording (fun _ => .error ()) (fun _ => .error ())
        recState).1.status_var = "Error occurred" ∧
      (MainApplication.stop_recording (fun _ => .ok "hi".toList) (fun _ => .error ())
          recState).1.transcribed_text = "hi".toList :=
  ⟨((C5_amended_failure_handling recState _ _ [7] ⟨false, [7], some .closed⟩ rfl).1
      rfl).2.2.2.2.2.1,
   ((C5_amended_failure_handling recState _ _ [7] ⟨false, [7], some .closed⟩ rfl).2
      "hi".toList rfl rfl).2.1⟩

/-- C6 counterexample: the claim says a device-open failure during arm
does not transition AudioCapture to the armed state; but
`start_recording` sets the `recording` flag (the recorder's armed flag)
before opening the stream, so after the failure the flag is `True`. -/
theorem C6_cex_armed_flag_after_failure :
    (match AudioRecorder.start_recording AudioRecorder.init false with
      | .ok r => r.recording
      | .error r => r.recording) = true := rfl

/-- C6 amended: a device-open failure during arm is reported synchronously
(the exception reaches the controller, which surfaces it exactly once),
the controller stays in Idle with status, button and stored results
unchanged, no stream is opened and no retry occurs; however the
recorder's armed flag has already been set and stays `True`. -/
theorem C6_amended_device_failure :
    ∀ s : MainApplication, s.recording = false →
      (MainApplication.start_recording false s).1.recording = false ∧
      (MainApplication.start_recording false s).1.status_var = s.status_var ∧
      (MainApplication.start_recording false s).1.record_btn = s.record_btn ∧
      (MainApplication.start_recording false s).1.transcribed_text = s.transcribed_text ∧
      (MainApplication.start_recording false s).1.latex_code = s.latex_code ∧
      (MainApplication.start_recording false s).1.trans_text = s.trans_text ∧
      (MainApplication.start_recording false s).1.latex_text = s.latex_text ∧
      (MainApplication.start_recording false s).2 = [AppEvent.errorShown] ∧
      (MainApplication.start_recording false s).1.recorder.recording = true ∧
      (MainApplication.start_recording false s).1.recorder.audio_data = [] ∧
      (MainApplication.start_recording false s).1.recorder.stream = s.recorder.stream :=
  fun _ h => ⟨h, rfl, rfl, rfl, rfl, rfl, rfl, rfl, rfl, rfl, rfl⟩

/-- Witness for C6 at the initial state: the failed arm leaves the
controller Idle and shows one error box. -/
theorem C6_witness :
    (MainApplication.start_recording false MainApplication.init).1.recording = false ∧
      (MainApplication.start_recording false MainApplication.init).2 =
        [AppEvent.errorShown] :=
  ⟨(C6_amended_device_failure MainApplication.init rfl).1,
   (C6_amended_device_failure MainApplication.init rfl).2.2.2.2.2.2.2.1⟩

/-- C7: the buffer is created empty by arm; each delivered frame can only
append (so the length is monotonically non-decreasing, and while armed the
frame is appended exactly); after disarm the recorder is frozen — no
delivered frame changes it, hence the returned buffer (a copy taken at
disarm) never changes; and the toggle dispatch stops an open session
before a new one can be armed, so at most one session is open at a time. -/
theorem C7_buffer_invariants :
    (∀ r r0 : AudioRecorder, r.start_recording true = .ok r0 →
        r0.audio_data = [] ∧ r0.recording = true) ∧
      (∀ (r : AudioRecorder) (f : List Sample),
        r.audio_data.length ≤ (r.callback f).audio_data.length ∧
          (r.recording = true → (r.callback f).audio_data = r.audio_data ++ f)) ∧
      (∀ (r r1 : AudioRecorder) (buf : List Sample),
        r.stop_recording = .ok (buf, r1) →
        buf = r.audio_data ∧ r1.recording = false ∧
          ∀ fs : List (List Sample), deliverFrames r1 fs = r1) ∧
      ∀ (deviceOk : Bool) (tr : List Sample → Except Unit (List Char))
        (co : List Char → Except Unit (List Char)) (s : MainApplication),
        s.recording = true →
        MainApplication.toggle_recording deviceOk tr co s =
          MainApplication.stop_recording tr co s := by
  refine ⟨?_, ?_, ?_, ?_⟩
  · intro r r0 h
    have e : (⟨true, [], some .started⟩ : AudioRecorder) = r0 := Except.ok.inj h
    subst e
    exact ⟨rfl, rfl⟩
  · intro r f
    constructor
    · by_cases hr : r.recording = true
      · simp [AudioRecorder.callback, hr]
      · simp [AudioRecorder.callback, hr]
    · intro hr
      simp [AudioRecorder.callback, hr]
  · intro r r1 buf h
    cases hs : r.stream with
    | none => simp [AudioRecorder.stop_recording, hs] at h
    | some st =>
        cases st with
        | closed => simp [AudioRecorder.stop_recording, hs] at h
        | started =>
            have hstop : r.stop_recording =
                .ok (r.audio_data, ⟨false, r.audio_data, some .closed⟩) := by
              simp [AudioRecorder.stop_recording, hs]
            rw [hstop] at h
            have e := Except.ok.inj h
            have e1 : r.audio_data = buf := congrArg Prod.fst e
            have e2 : (⟨false, r.audio_data, some .closed⟩ : AudioRecorder) = r1 :=
              congrArg Prod.snd e
            subst e2
            exact ⟨e1.symm, rfl, fun fs => deliverFrames_stopped fs _ rfl⟩
  · intro deviceOk tr co s h
    simp [MainApplication.toggle_recording, h]

/-- Witness for C7 at concrete recorders: arm yields an empty buffer; a
delivered frame appends; a disarmed recorder ignores later frames; toggle
on a recording controller stops it. -/
theorem C7_witness :
    (⟨true, [], some .started⟩ : AudioRecorder).audio_data = [] ∧
      (AudioRecorder.callback ⟨true, [1], some .started⟩ [2]).audio_data = [1, 2] ∧
      deliverFrames ⟨false, [4], some .closed⟩ [[6]] = ⟨false, [4], some .closed⟩ ∧
      MainApplication.toggle_recording true (fun _ => .ok []) (fun _ => .ok []) recState =
        MainApplication.stop_recording (fun _ => .ok []) (fun _ => .ok []) recState :=
  ⟨(C7_buffer_invariants.1 AudioRecorder.init ⟨true, [], some .started⟩ rfl).1,
   (C7_buffer_invariants.2.1 ⟨true, [1], some .started⟩ [2]).2 rfl,
   (C7_buffer_invariants.2.2.1 ⟨true, [4], some .started⟩ ⟨false, [4], some .closed⟩
      [4] rfl).2.2 [[6]],
   C7_buffer_invariants.2.2.2 true _ _ recState rfl⟩

/-- C8 counterexample: the claim says the waveform artifact is discarded
after transcription; but in a session whose transcription succeeds and
whose formatting call fails, `os.unlink` is skipped and the file is never
deleted. -/
theorem C8_cex_artifact_not_deleted :
    AppEvent.wavDeleted ∉
      (MainApplication.stop_recording (fun _ => .ok "hi".toList) (fun _ => .error ())
          recState).2 := by decide

/-- C8 amended: every disarmed session writes exactly one waveform
artifact, single-channel with 2-byte samples at 16 kHz, holding the
session's buffer; the artifact is deleted only when both transcription
and formatting succeed — if either fails, the file is left behind. -/
theorem C8_amended_artifact_lifecycle :
    ∀ (s : MainApplication) (tr : List Sample → Except Unit (List Char))
      (co : List Char → Except Unit (List Char)) (buf : List Sample) (r1 : AudioRecorder),
      s.recorder.stop_recording = .ok (buf, r1) →
      (MainApplication.stop_recording tr co s).2.filter AppEvent.isWavWritten =
          [AppEvent.wavWritten ⟨1, 2, 16000, buf⟩] ∧
        (∀ t resp : List Char, tr buf = .ok t → co t = .ok resp →
          AppEvent.wavDeleted ∈ (MainApplication.stop_recording tr co s).2) ∧
        (tr buf = .error () →
          AppEvent.wavDeleted ∉ (MainApplication.stop_recording tr co s).2) ∧
        ∀ t : List Char, tr buf = .ok t → co t = .error () →
          AppEvent.wavDeleted ∉ (MainApplication.stop_recording tr co s).2 := by
  intro s tr co buf r1 h
  refine ⟨?_, ?_, ?_, ?_⟩
  · rcases htr : tr buf with e | t
    · simp [MainApplication.stop_recording, MainApplication.stopPhase1, h,
        MainApplication.stopPhase2, htr, AppEvent.isWavWritten]
    · rcases hco : co t with e2 | resp
      · simp [MainApplication.stop_recording, MainApplication.stopPhase1, h,
          MainApplication.stopPhase2, htr, text_to_latex, hco, AppEvent.isWavWritten]
      · simp [MainApplication.stop_recording, MainApplication.stopPhase1, h,
          MainApplication.stopPhase2, htr, text_to_latex, hco, AppEvent.isWavWritten]
  · intro t resp htr hco
    simp [MainApplication.stop_recording, MainApplication.stopPhase1, h,
      MainApplication.stopPhase2, htr, text_to_latex, hco]
  · intro htr
    simp [MainApplication.stop_recording, MainApplication.stopPhase1, h,
      MainApplication.stopPhase2, htr]
  · intro t htr hco
    simp [MainApplication.stop_recording, MainApplication.stopPhase1, h,
      MainApplication.stopPhase2, htr, text_to_latex, hco]

/-- Witness for C8 at a successful concrete session: one artifact with
the right parameters is written and then deleted. -/
theorem C8_witness :
    (MainApplication.stop_recording (fun _ => .ok "ok".toList) (fun _ => .ok "x".toList)
          recState).2.filter AppEvent.isWavWritten =
        [AppEvent.wavWritten ⟨1, 2, 16000, [7]⟩] ∧
      AppEvent.wavDeleted ∈
        (MainApplication.stop_recording (fun _ => .ok "ok".toList) (fun _ => .ok "x".toList)
            recState).2 :=
  ⟨(C8_amended_artifact_lifecycle recState _ _ [7] ⟨false, [7], some .closed⟩ rfl).1,
   (C8_amended_artifact_lifecycle recState _ _ [7] ⟨false, [7], some .closed⟩ rfl).2.1
      "ok".toList "x".toList rfl rfl⟩

/-- C9 counterexample: the claim says the stored transcript is empty
before any recording session has completed successfully; but after a
session whose formatting call fails (so no session has completed
successfully — the handler ends with status "Error occurred"), the stored
transcript is already "hi", because `stop_recording` stores the
transcript before calling `text_to_latex`. -/
theorem C9_cex_transcript_before_success :
    ((MainApplication.toggle_recording true (fun _ => .ok "hi".toList) (fun _ => .error ())
        (MainApplication.toggle_recording true (fun _ => .ok "hi".toList) (fun _ => .error ())
          MainApplication.init).1).1).transcribed_text ≠ ([] : List Char) ∧
      ((MainApplication.toggle_recording true (fun _ => .ok "hi".toList) (fun _ => .error ())
          (MainApplication.toggle_recording true (fun _ => .ok "hi".toList) (fun _ => .error ())
            MainApplication.init).1).1).status_var = "Error occurred" := by
  constructor
  · decide
  · decide

/-- C9 amended: in the initial state — before any recording session has
been attempted — the stored transcript and LaTeX result are both empty,
so both copy actions copy the empty string to the clipboard. -/
theorem C9_initial_empty_copies :
    MainApplication.init.transcribed_text = [] ∧
      MainApplication.init.latex_code = [] ∧
      (MainApplication.copy_text MainApplication.init).2 = [AppEvent.clipboard []] ∧
      (MainApplication.copy_latex MainApplication.init).2 = [AppEvent.clipboard []] :=
  ⟨rfl, rfl, rfl, rfl⟩

/-- C10: the two copy actions change no application state other than the
status text: the recorder, the recording flag, the stored transcript and
LaTeX, and both display widgets are untouched, and the only side effect
is one clipboard write of the corresponding stored string. -/
theorem C10_copy_frame :
    ∀ s : MainApplication,
      ((MainApplication.copy_text s).1.recorder = s.recorder ∧
       (MainApplication.copy_text s).1.recording = s.recording ∧
       (MainApplication.copy_text s).1.transcribed_text = s.transcribed_text ∧
       (MainApplication.copy_text s).1.latex_code = s.latex_code ∧
       (MainApplication.copy_text s).1.trans_text = s.trans_text ∧
       (MainApplication.copy_text s).1.latex_text = s.latex_text ∧
       (MainApplication.copy_text s).1.record_btn = s.record_btn ∧
       (MainApplication.copy_text s).1.status_var = "Text copied to clipboard!" ∧
       (MainApplication.copy_text s).2 = [AppEvent.clipboard s.transcribed_text]) ∧
      ((MainApplication.copy_latex s).1.recorder = s.recorder ∧
       (MainApplication.copy_latex s).1.recording = s.recording ∧
       (MainApplication.copy_latex s).1.transcribed_text = s.transcribed_text ∧
       (MainApplication.copy_latex s).1.latex_code = s.latex_code ∧
       (MainApplication.copy_latex s).1.trans_text = s.trans_text ∧
       (MainApplication.copy_latex s).1.latex_text = s.latex_text ∧
       (MainApplication.copy_latex s).1.record_btn = s.record_btn ∧
       (MainApplication.copy_latex s).1.status_var = "LaTeX copied to clipboard!" ∧
       (MainApplication.copy_latex s).2 = [AppEvent.clipboard s.latex_code]) :=
  fun _ =>
    ⟨⟨rfl, rfl, rfl, rfl, rfl, rfl, rfl, rfl, rfl⟩,
     ⟨rfl, rfl, rfl, rfl, rfl, rfl, rfl, rfl, rfl⟩⟩
